import Mathlib

/-!
Shallow embedding of the learn-sql-backend submission evaluation engine:
the SQL sandbox validator (`ValidatorService`) and the feedback
orchestrator (`AIService`), together with theorems checking the
specification's claims against these definitions.

JavaScript strings are embedded as `List Char` (with `String` at the
interface), JS `Map` as an association list, timestamps as `Nat`, and the
external collaborators (the SQLite engine, the HTTP reasoning service) as
explicit functional parameters, so that every operation of the source is a
computable Lean function.
-/

namespace LearnSql

/-- JS `String.prototype.trim`: drop leading and trailing whitespace. -/
def jsTrim (s : List Char) : List Char :=
  ((s.dropWhile Char.isWhitespace).reverse.dropWhile Char.isWhitespace).reverse

/-- JS `String.prototype.toUpperCase` (ASCII case mapping, as in the source's SQL text). -/
def jsToUpper (s : List Char) : List Char := s.map Char.toUpper

/-- JS `String.prototype.toLowerCase` (ASCII case mapping). -/
def jsToLower (s : List Char) : List Char := s.map Char.toLower

/-- JS `String.prototype.includes`: substring occurrence. -/
def jsIncludes (hay needle : List Char) : Bool := decide (needle <:+: hay)

/-- JS `String.prototype.split` on a one-character separator:
`"".split(c) = [""]`, separators delimit (possibly empty) segments. -/
def jsSplit (c : Char) : List Char → List (List Char)
  | [] => [[]]
  | x :: xs =>
    let r := jsSplit c xs
    if x = c then [] :: r
    else
      match r with
      | [] => [[x]]
      | y :: ys => (x :: y) :: ys

/-- An apostrophe (U+0027), used inside embedded message strings. -/
def apos : String := String.mk [Char.ofNat 39]

/-! ### Statement classifier (`ValidatorService.preValidateSQL`) -/

/-- The fixed forbidden-operation vocabulary of `ValidatorService`. -/
def FORBIDDEN_KEYWORDS : List String :=
  ["DROP", "DELETE", "UPDATE", "INSERT", "ALTER", "CREATE", "TRUNCATE",
   "REPLACE", "MERGE", "CALL", "EXPLAIN", "LOCK", "GRANT", "REVOKE"]

/-- The allowed leading statements of `ValidatorService`. -/
def ALLOWED_STATEMENTS : List String := ["SELECT"]

/-- Rejection message for a matched forbidden keyword. -/
def forbiddenMsg (keyword : String) : String :=
  "Operation not allowed: " ++ keyword ++ ". Only SELECT statements are permitted."

/-- Rejection message when the statement does not start with an allowed verb. -/
def notSelectMsg (firstToken : String) : String :=
  "Only SELECT statements are allowed. Found: " ++ firstToken

/-- Rejection message for multiple statements. -/
def multipleStatementsMsg : String :=
  "Multiple statements are not allowed. Please use a single SELECT statement."

/-- Rejection message for empty input. -/
def emptyMsg : String := "SQL query cannot be empty"

/-- `ValidatorService.preValidateSQL`: returns `some errorMessage` on Reject,
`none` on Allow, applying the source's checks in order: empty text, forbidden
keyword scan on the trimmed upper-cased text, allowed leading verb, and the
multiple-statement (semicolon) check on the raw text. -/
def preValidateSQL (sql : String) : Option String :=
  let trimmedSQL := jsToUpper (jsTrim sql.data)
  if trimmedSQL.isEmpty then some emptyMsg
  else
    match FORBIDDEN_KEYWORDS.find? (fun kw => jsIncludes trimmedSQL kw.data) with
    | some keyword => some (forbiddenMsg keyword)
    | none =>
      if !(ALLOWED_STATEMENTS.any (fun stmt => stmt.data.isPrefixOf trimmedSQL)) then
        some (notSelectMsg (String.mk ((jsSplit ' ' trimmedSQL).headD [])))
      else
        let statements := (jsSplit ';' sql.data).filter (fun s => !(jsTrim s).isEmpty)
        if statements.length > 1 then some multipleStatementsMsg
        else none

/-! ### Support lemmas: case mapping, trimming and substring occurrence -/

theorem isWhitespace_ofNat_upper (m : Nat) (h1 : 65 ≤ m) (h2 : m ≤ 90) :
    (Char.ofNat m).isWhitespace = false := by
  interval_cases m <;> decide

theorem isWhitespace_false_of_ge (c : Char) (h : 97 ≤ c.toNat) :
    c.isWhitespace = false := by
  simp only [Char.isWhitespace, Bool.or_eq_false_iff, decide_eq_false_iff_not]
  refine ⟨⟨⟨?_, ?_⟩, ?_⟩, ?_⟩ <;> (intro hc; rw [hc] at h; exact absurd h (by decide))

theorem isWhitespace_toUpper (c : Char) : c.toUpper.isWhitespace = c.isWhitespace := by
  by_cases h : c.toNat ≥ 97 ∧ c.toNat ≤ 122
  · have hup : c.toUpper = Char.ofNat (c.toNat - 32) := by
      show (if c.toNat ≥ 97 ∧ c.toNat ≤ 122 then Char.ofNat (c.toNat - 32) else c) = _
      exact if_pos h
    rw [hup, isWhitespace_ofNat_upper _ (by omega) (by omega),
        isWhitespace_false_of_ge c h.1]
  · have hup : c.toUpper = c := by
      show (if c.toNat ≥ 97 ∧ c.toNat ≤ 122 then Char.ofNat (c.toNat - 32) else c) = c
      exact if_neg h
    rw [hup]

theorem map_toUpper_dropWhile (x : List Char) :
    (x.dropWhile Char.isWhitespace).map Char.toUpper
      = (x.map Char.toUpper).dropWhile Char.isWhitespace := by
  rw [List.dropWhile_map]
  have hcomp : Char.isWhitespace ∘ Char.toUpper = Char.isWhitespace :=
    funext isWhitespace_toUpper
  rw [hcomp]

theorem jsToUpper_jsTrim (l : List Char) :
    jsToUpper (jsTrim l) = jsTrim (jsToUpper l) := by
  unfold jsToUpper jsTrim
  rw [List.map_reverse, map_toUpper_dropWhile, List.map_reverse, map_toUpper_dropWhile]

theorem infix_dropWhile_of_not (p : Char → Bool) (kw : List Char) (hne : kw ≠ [])
    (hnp : ∀ c ∈ kw, p c = false) :
    ∀ l : List Char, kw <:+: l → kw <:+: l.dropWhile p := by
  intro l
  induction l with
  | nil => intro h; simpa using h
  | cons x xs ih =>
    intro h
    by_cases hx : p x
    · rw [List.dropWhile_cons, if_pos hx]
      apply ih
      obtain ⟨s, t, hst⟩ := h
      cases s with
      | nil =>
        cases kw with
        | nil => exact absurd rfl hne
        | cons k kw2 =>
          simp only [List.nil_append, List.cons_append, List.cons.injEq] at hst
          obtain ⟨hk, _⟩ := hst
          have hfk := hnp k (by simp)
          rw [hk, hx] at hfk
          cases hfk
      | cons a s2 =>
        simp only [List.cons_append, List.cons.injEq] at hst
        exact ⟨s2, t, hst.2⟩
    · rw [List.dropWhile_cons, if_neg hx]
      exact h

theorem infix_jsTrim (kw l : List Char) (hne : kw ≠ [])
    (hnw : ∀ c ∈ kw, c.isWhitespace = false) (h : kw <:+: l) :
    kw <:+: jsTrim l := by
  unfold jsTrim
  have h1 := infix_dropWhile_of_not _ kw hne hnw l h
  have h2 : kw.reverse <:+: (l.dropWhile Char.isWhitespace).reverse :=
    List.reverse_infix.mpr h1
  have h3 := infix_dropWhile_of_not _ kw.reverse (by simpa using hne)
    (fun c hc => hnw c (List.mem_reverse.mp hc)) _ h2
  have h4 := List.reverse_infix.mpr h3
  simpa using h4

theorem forbidden_keyword_ne_nil_and_no_ws (kw : String) (h : kw ∈ FORBIDDEN_KEYWORDS) :
    kw.data ≠ [] ∧ ∀ c ∈ kw.data, c.isWhitespace = false := by
  fin_cases h <;> exact ⟨by decide, by decide⟩

/-- C1: any SQL text containing a forbidden-operation keyword (case-insensitively,
at any position in the text) is rejected by `preValidateSQL`, and the rejection
reason names the matched keyword (a keyword of the vocabulary that does occur in
the scanned text). -/
theorem classify_rejects_forbidden_keyword (sql kw : String)
    (hmem : kw ∈ FORBIDDEN_KEYWORDS)
    (hocc : kw.data <:+: jsToUpper sql.data) :
    ∃ kw2 ∈ FORBIDDEN_KEYWORDS, preValidateSQL sql = some (forbiddenMsg kw2)
      ∧ jsIncludes (jsToUpper (jsTrim sql.data)) kw2.data = true := by
  obtain ⟨hne, hnw⟩ := forbidden_keyword_ne_nil_and_no_ws kw hmem
  have htrim : kw.data <:+: jsToUpper (jsTrim sql.data) := by
    rw [jsToUpper_jsTrim]
    exact infix_jsTrim kw.data (jsToUpper sql.data) hne hnw hocc
  have hp : jsIncludes (jsToUpper (jsTrim sql.data)) kw.data = true :=
    decide_eq_true htrim
  have hsome : (FORBIDDEN_KEYWORDS.find?
      (fun k => jsIncludes (jsToUpper (jsTrim sql.data)) k.data)).isSome := by
    rw [List.find?_isSome]
    exact ⟨kw, hmem, hp⟩
  obtain ⟨kw2, hfind⟩ := Option.isSome_iff_exists.mp hsome
  have hmem2 := List.mem_of_find?_eq_some hfind
  have hp2 := List.find?_some hfind
  have hnonempty : jsToUpper (jsTrim sql.data) ≠ [] := by
    intro h0
    rw [h0, List.infix_nil] at htrim
    exact hne htrim
  have hempty_false : (jsToUpper (jsTrim sql.data)).isEmpty = false := by
    cases hb : (jsToUpper (jsTrim sql.data)).isEmpty
    · rfl
    · exact absurd (List.isEmpty_iff.mp hb) hnonempty
  refine ⟨kw2, hmem2, ?_, hp2⟩
  simp only [preValidateSQL, hempty_false, Bool.false_eq_true, if_false, hfind]

/-- Witness for C1 at the concrete input `"drop table users"`. -/
theorem classify_rejects_forbidden_keyword_witness :
    (("DROP" : String).data <:+: jsToUpper ("drop table users" : String).data)
    ∧ ∃ kw2 ∈ FORBIDDEN_KEYWORDS,
        preValidateSQL "drop table users" = some (forbiddenMsg kw2) := by
  refine ⟨by decide, ?_⟩
  obtain ⟨kw2, h1, h2, _⟩ :=
    classify_rejects_forbidden_keyword "drop table users" "DROP" (by decide) (by decide)
  exact ⟨kw2, h1, h2⟩

/-- C8: any SQL text whose split on the statement separator has more than one
non-empty segment is rejected by `preValidateSQL`; in particular
`"SELECT 1; SELECT 2;"` is rejected with the multiple-statements reason. -/
theorem classify_rejects_multiple_statements (sql : String)
    (hmulti : 1 < ((jsSplit ';' sql.data).filter (fun s => !(jsTrim s).isEmpty)).length) :
    (preValidateSQL sql).isSome = true
    ∧ preValidateSQL "SELECT 1; SELECT 2;" = some multipleStatementsMsg := by
  refine ⟨?_, by decide⟩
  simp only [preValidateSQL]
  repeat' split
  all_goals first | rfl | omega

/-- Witness for C8 at the concrete input `"SELECT 1; SELECT 2;"`. -/
theorem classify_rejects_multiple_statements_witness :
    (1 < ((jsSplit ';' ("SELECT 1; SELECT 2;" : String).data).filter
        (fun s => !(jsTrim s).isEmpty)).length)
    ∧ (preValidateSQL "SELECT 1; SELECT 2;").isSome = true := by
  exact ⟨by decide, (classify_rejects_multiple_statements "SELECT 1; SELECT 2;" (by decide)).1⟩

/-! ### Result values and JSON serialization

Result cells (`any` in the source) are modelled by the JSON scalar values a
SQLite row can hold; `JSON.stringify` is modelled structurally. -/

inductive JSValue where
  | null : JSValue
  | bool : Bool → JSValue
  | num : Int → JSValue
  | str : String → JSValue
deriving DecidableEq, Repr

/-- JSON string escaping (quote and backslash). -/
def jsonEscape (s : String) : String :=
  String.mk (s.data.flatMap (fun c => if c = '"' ∨ c = '\\' then ['\\', c] else [c]))

/-- A JSON string literal. -/
def jsonStr (s : String) : String := "\"" ++ jsonEscape s ++ "\""

/-- `JSON.stringify` of a scalar value. -/
def stringifyJS : JSValue → String
  | JSValue.null => "null"
  | JSValue.bool true => "true"
  | JSValue.bool false => "false"
  | JSValue.num n => toString n
  | JSValue.str s => jsonStr s

/-- `JSON.stringify` of one result row (an array of cells). -/
def stringifyRow (row : List JSValue) : String :=
  "[" ++ String.intercalate "," (row.map stringifyJS) ++ "]"

/-- `JSON.stringify` of an array of rows. -/
def stringifyRows (rows : List (List JSValue)) : String :=
  "[" ++ String.intercalate "," (rows.map stringifyRow) ++ "]"

/-- `JSON.stringify` of an array of strings. -/
def stringifyStrList (xs : List String) : String :=
  "[" ++ String.intercalate "," (xs.map jsonStr) ++ "]"

/-- The `columns`/`rows` result shape of `ValidationResult.result`. -/
structure QueryResult where
  columns : List String
  rows : List (List JSValue)
deriving DecidableEq, Repr

/-- Lexicographic code-point comparison of JS strings: models both the default
comparator of `Array.prototype.sort` on strings and the total order induced by
`localeCompare` in the source's row comparator. -/
def charListLe : List Char → List Char → Bool
  | [], _ => true
  | _ :: _, [] => false
  | a :: as, b :: bs =>
    if a.toNat < b.toNat then true
    else if b.toNat < a.toNat then false
    else charListLe as bs

/-- The string order used by the normalizer's sorts. -/
def strLe (a b : String) : Prop := charListLe a.data b.data = true

instance : DecidableRel strLe := fun a b =>
  inferInstanceAs (Decidable (charListLe a.data b.data = true))

theorem charListLe_total : ∀ a b : List Char,
    charListLe a b = true ∨ charListLe b a = true := by
  intro a
  induction a with
  | nil => intro b; left; rfl
  | cons x xs ih =>
    intro b
    cases b with
    | nil => right; rfl
    | cons y ys =>
      by_cases h1 : x.toNat < y.toNat
      · left; simp [charListLe, h1]
      · by_cases h2 : y.toNat < x.toNat
        · right; simp [charListLe, h2]
        · rcases ih ys with h | h
          · left; simp [charListLe, h1, h2, h]
          · right; simp [charListLe, h1, h2, h]

theorem charListLe_trans : ∀ a b c : List Char, charListLe a b = true →
    charListLe b c = true → charListLe a c = true := by
  intro a
  induction a with
  | nil => intros; rfl
  | cons x xs ih =>
    intro b c hab hbc
    cases b with
    | nil => simp [charListLe] at hab
    | cons y ys =>
      cases c with
      | nil => simp [charListLe] at hbc
      | cons z zs =>
        simp only [charListLe] at hab hbc ⊢
        split_ifs at hab hbc ⊢ <;>
          first
            | rfl
            | omega
            | exact ih ys zs hab hbc
            | exact absurd hab Bool.false_ne_true
            | exact absurd hbc Bool.false_ne_true

theorem charListLe_antisymm : ∀ a b : List Char, charListLe a b = true →
    charListLe b a = true → a = b := by
  intro a
  induction a with
  | nil =>
    intro b _ hba
    cases b with
    | nil => rfl
    | cons y ys => simp [charListLe] at hba
  | cons x xs ih =>
    intro b hab hba
    cases b with
    | nil => simp [charListLe] at hab
    | cons y ys =>
      simp only [charListLe] at hab hba
      split_ifs at hab hba <;>
        first
          | omega
          | exact absurd hab Bool.false_ne_true
          | exact absurd hba Bool.false_ne_true
          | (have hxy : x = y := by
               have hn : x.toNat = y.toNat := by omega
               rw [← Char.ofNat_toNat x, ← Char.ofNat_toNat y, hn]
             exact congrArg₂ List.cons hxy (ih ys hab hba))

instance : IsTotal String strLe := ⟨fun a b => charListLe_total a.data b.data⟩

instance : IsTrans String strLe := ⟨fun _ _ _ => charListLe_trans _ _ _⟩

instance : IsAntisymm String strLe := by
  refine ⟨fun a b hab hba => ?_⟩
  have h := charListLe_antisymm a.data b.data hab hba
  cases a; cases b; exact congrArg String.mk h

/-- Row comparison used by `normalizeResult`: the source compares
`JSON.stringify(a).localeCompare(JSON.stringify(b))`, modelled as the
lexicographic order on the serialized rows. -/
def rowLe (a b : List JSValue) : Prop := strLe (stringifyRow a) (stringifyRow b)

instance : DecidableRel rowLe := fun a b =>
  inferInstanceAs (Decidable (strLe (stringifyRow a) (stringifyRow b)))

instance : IsTotal (List JSValue) rowLe := ⟨fun a b => charListLe_total _ _⟩

instance : IsTrans (List JSValue) rowLe := ⟨fun _ _ _ => charListLe_trans _ _ _⟩

/-- `ValidatorService.normalizeResult`: sort the column names, sort the rows by
their serialized form, and serialize the pair as `JSON.stringify` does. -/
def normalizeResult (result : QueryResult) : String :=
  let sortedColumns := List.insertionSort strLe result.columns
  let sortedRows := List.insertionSort rowLe result.rows
  "\x7b\"columns\":" ++ stringifyStrList sortedColumns
    ++ ",\"rows\":" ++ stringifyRows sortedRows ++ "\x7d"

/-- C2 counterexample input: a two-column result with a single row. -/
def exResult : QueryResult := ⟨["a", "b"], [[JSValue.num 1, JSValue.num 2]]⟩

/-- C2 counterexample input: `exResult` with its columns swapped and each row's
cells reordered consistently with the column permutation (the column-shuffled
result of the claim). -/
def exResultShuffled : QueryResult := ⟨["b", "a"], [[JSValue.num 2, JSValue.num 1]]⟩

/-- C2 fails as stated: a column-shuffled permutation of a result (cells
permuted consistently with the columns) can normalize to a different key,
because `normalizeResult` sorts the column names but never reorders the cells
inside the rows. -/
theorem normalizeResult_column_shuffle_counterexample :
    normalizeResult exResult ≠ normalizeResult exResultShuffled := by decide

/-- C2 amended: `normalizeResult` is invariant under any permutation of the
row list and any permutation of the column-name list that leaves the cell
order inside the rows unchanged. -/
theorem normalizeResult_perm_invariant (cols cols2 : List String)
    (rows rows2 : List (List JSValue))
    (hc : cols.Perm cols2) (hr : rows.Perm rows2) :
    normalizeResult ⟨cols, rows⟩ = normalizeResult ⟨cols2, rows2⟩ := by
  have hcs1 : List.Sorted strLe (List.insertionSort strLe cols) :=
    List.sorted_insertionSort _ cols
  have hcs2 : List.Sorted strLe (List.insertionSort strLe cols2) :=
    List.sorted_insertionSort _ cols2
  have hcols : List.insertionSort strLe cols = List.insertionSort strLe cols2 :=
    List.eq_of_perm_of_sorted
      ((List.perm_insertionSort _ cols).trans
        (hc.trans (List.perm_insertionSort _ cols2).symm)) hcs1 hcs2
  have hs1 : List.Sorted strLe ((List.insertionSort rowLe rows).map stringifyRow) :=
    List.pairwise_map.mpr (List.sorted_insertionSort rowLe rows)
  have hs2 : List.Sorted strLe ((List.insertionSort rowLe rows2).map stringifyRow) :=
    List.pairwise_map.mpr (List.sorted_insertionSort rowLe rows2)
  have hrows : (List.insertionSort rowLe rows).map stringifyRow
      = (List.insertionSort rowLe rows2).map stringifyRow :=
    List.eq_of_perm_of_sorted
      (((List.perm_insertionSort _ rows).trans
        (hr.trans (List.perm_insertionSort _ rows2).symm)).map stringifyRow)
      hs1 hs2
  simp only [normalizeResult, stringifyRows]
  rw [hcols, hrows]

/-- Witness for the amended C2 on a concrete row and column permutation. -/
theorem normalizeResult_perm_invariant_witness :
    normalizeResult ⟨["a", "b"], [[JSValue.num 1], [JSValue.num 2]]⟩
      = normalizeResult ⟨["b", "a"], [[JSValue.num 2], [JSValue.num 1]]⟩ :=
  normalizeResult_perm_invariant ["a", "b"] ["b", "a"]
    [[JSValue.num 1], [JSValue.num 2]] [[JSValue.num 2], [JSValue.num 1]]
    (by decide) (by decide)

/-! ### Sandbox executor (`ValidatorService.executeSQLInSandbox`)

The sqlite3 engine is an external collaborator, modelled as a deterministic
function of the invocation (seeding) time, the seed script and the query
text: the seed DDL declares `created_at DATETIME DEFAULT CURRENT_TIMESTAMP`
and the seed INSERT omits `created_at`, so the engine stamps the seeded
`users` rows with the wall clock of the call that created the store — the
store's content genuinely depends on when it is built. The engine's
wall-clock duration is modelled alongside so that the timeout race of the
source is an explicit comparison. -/

/-- `ValidationResult` of the source: an error message or a columns/rows result. -/
structure ValidationResult where
  error : Option String
  result : Option QueryResult
deriving DecidableEq, Repr

/-- The external SQLite engine: `all` returns the key/value rows (or an engine
error message) for a query against a store seeded by the given script at the
given invocation time (the time matters because of the seed DDL's
`CURRENT_TIMESTAMP` default); `duration` is the time the engine takes on that
call. -/
structure SQLEngine where
  duration : Nat → List String → String → Nat
  all : Nat → List String → String → Except String (List (List (String × JSValue)))

/-- Single-quote an SQL string literal. -/
def sq (s : String) : String := apos ++ s ++ apos

/-- Seed DDL for the `users` table. -/
def createUsersTableSQL : String :=
  "CREATE TABLE users (id INTEGER PRIMARY KEY, name TEXT NOT NULL, email TEXT UNIQUE NOT NULL, age INTEGER, created_at DATETIME DEFAULT CURRENT_TIMESTAMP)"

/-- Seed rows for the `users` table. -/
def insertUsersSQL : String :=
  "INSERT INTO users (name, email, age) VALUES (" ++ sq "John Doe" ++ ", "
    ++ sq "john@example.com" ++ ", 30), (" ++ sq "Jane Smith" ++ ", "
    ++ sq "jane@example.com" ++ ", 25), (" ++ sq "Bob Johnson" ++ ", "
    ++ sq "bob@example.com" ++ ", 35), (" ++ sq "Alice Wilson" ++ ", "
    ++ sq "alice@example.com" ++ ", 28), (" ++ sq "Charlie Brown" ++ ", "
    ++ sq "charlie@example.com" ++ ", 32)"

/-- Seed DDL for the `products` table. -/
def createProductsTableSQL : String :=
  "CREATE TABLE products (id INTEGER PRIMARY KEY, name TEXT NOT NULL, price DECIMAL(10,2), category TEXT, in_stock BOOLEAN DEFAULT 1)"

/-- Seed rows for the `products` table. -/
def insertProductsSQL : String :=
  "INSERT INTO products (name, price, category, in_stock) VALUES ("
    ++ sq "Laptop" ++ ", 999.99, " ++ sq "Electronics" ++ ", 1), ("
    ++ sq "Mouse" ++ ", 29.99, " ++ sq "Electronics" ++ ", 1), ("
    ++ sq "Desk Chair" ++ ", 199.99, " ++ sq "Furniture" ++ ", 0), ("
    ++ sq "Coffee Mug" ++ ", 12.99, " ++ sq "Kitchen" ++ ", 1), ("
    ++ sq "Notebook" ++ ", 5.99, " ++ sq "Office" ++ ", 1)"

/-- The fixed deterministic seed script run on every fresh sandbox store. -/
def seedScript : List String :=
  [createUsersTableSQL, insertUsersSQL, createProductsTableSQL, insertProductsSQL]

/-- JS property access `row[col]` on a key/value row (an absent key is
modelled as the JSON null it serializes to). -/
def objGet (row : List (String × JSValue)) (col : String) : JSValue :=
  ((row.find? (fun p => p.1 == col)).map (fun p => p.2)).getD JSValue.null

/-- JS `Object.keys` of a key/value row. -/
def objKeys (row : List (String × JSValue)) : List String := row.map (fun p => p.1)

/-- `ValidatorService.executeSQLInSandbox`: run the query on a fresh store
seeded by `seedScript`; on timeout report the timeout error; on engine error
wrap the message; on success truncate to `maxRows`, take the column names from
the first remaining row, and project every row along those columns. -/
def executeSQLInSandbox (engine : SQLEngine) (invokedAt : Nat) (sql : String)
    (timeout maxRows : Nat) : ValidationResult :=
  if timeout ≤ engine.duration invokedAt seedScript sql then
    { error := some "Query execution timeout", result := none }
  else
    match engine.all invokedAt seedScript sql with
    | Except.error m => { error := some ("SQL Error: " ++ m), result := none }
    | Except.ok rows =>
      let limitedRows := rows.take maxRows
      let columns := match limitedRows with
        | [] => []
        | r :: _ => objKeys r
      let rowsArray := limitedRows.map (fun row => columns.map (fun col => objGet row col))
      { error := none, result := some { columns := columns, rows := rowsArray } }

/-- `ValidatorService.run`: pre-validate, then execute in the sandbox. -/
def runValidator (engine : SQLEngine) (invokedAt : Nat) (sql : String)
    (timeout maxRows : Nat) : ValidationResult :=
  match preValidateSQL sql with
  | some e => { error := some e, result := none }
  | none => executeSQLInSandbox engine invokedAt sql timeout maxRows

/-- The sqlite3 engine's behaviour on the seed script for
`SELECT * FROM users`: because the seed DDL gives `created_at` the default
`CURRENT_TIMESTAMP` and the seed INSERT omits it, every seeded row's
`created_at` cell carries the wall-clock time of the call that built the
store. The query completes instantly and returns the five seeded users. -/
def engineTS : SQLEngine where
  duration := fun _ _ _ => 0
  all := fun invokedAt _ _ =>
    Except.ok
      [[("id", JSValue.num 1), ("name", JSValue.str "John Doe"),
        ("email", JSValue.str "john@example.com"), ("age", JSValue.num 30),
        ("created_at", JSValue.str (toString invokedAt))],
       [("id", JSValue.num 2), ("name", JSValue.str "Jane Smith"),
        ("email", JSValue.str "jane@example.com"), ("age", JSValue.num 25),
        ("created_at", JSValue.str (toString invokedAt))],
       [("id", JSValue.num 3), ("name", JSValue.str "Bob Johnson"),
        ("email", JSValue.str "bob@example.com"), ("age", JSValue.num 35),
        ("created_at", JSValue.str (toString invokedAt))],
       [("id", JSValue.num 4), ("name", JSValue.str "Alice Wilson"),
        ("email", JSValue.str "alice@example.com"), ("age", JSValue.num 28),
        ("created_at", JSValue.str (toString invokedAt))],
       [("id", JSValue.num 5), ("name", JSValue.str "Charlie Brown"),
        ("email", JSValue.str "charlie@example.com"), ("age", JSValue.num 32),
        ("created_at", JSValue.str (toString invokedAt))]]

/-- C4 fails as stated: `SELECT * FROM users` is ALLOWed, yet running it
against two fresh sandboxes created one time unit apart yields different
`ValidationResult`s, because the seeded rows are stamped with the invocation
time by the seed DDL's `created_at DATETIME DEFAULT CURRENT_TIMESTAMP`. -/
theorem execute_time_dependence_counterexample :
    preValidateSQL "SELECT * FROM users" = none
    ∧ executeSQLInSandbox engineTS 0 "SELECT * FROM users" 5000 1000
        ≠ executeSQLInSandbox engineTS 1 "SELECT * FROM users" 5000 1000 :=
  ⟨by decide, by decide⟩

/-- C4 amended: the executor itself holds no state — executing the same
ALLOWed query twice against fresh seeded sandbox stores yields identical
`ValidationResult`s whenever the engine's reply and duration coincide at the
two invocation times (in particular whenever the invocation times are equal);
the only invocation-time dependence is the engine's `CURRENT_TIMESTAMP`
stamping of the seed rows. -/
theorem execute_deterministic_of_same_reply (engine : SQLEngine) (sql : String)
    (timeout maxRows t1 t2 : Nat) (hallow : preValidateSQL sql = none)
    (hdur : engine.duration t1 seedScript sql = engine.duration t2 seedScript sql)
    (hall : engine.all t1 seedScript sql = engine.all t2 seedScript sql) :
    executeSQLInSandbox engine t1 sql timeout maxRows
      = executeSQLInSandbox engine t2 sql timeout maxRows := by
  unfold executeSQLInSandbox
  rw [hdur, hall]

/-- Concrete engine used by the executor witnesses: a time-independent reply. -/
def engineW : SQLEngine where
  duration := fun _ _ _ => 0
  all := fun _ _ _ => Except.ok [[("id", JSValue.num 1)], [("id", JSValue.num 2)]]

/-- Witness for the amended C4 at a concrete allowed query and two invocation
times at which the concrete engine replies identically. -/
theorem execute_deterministic_of_same_reply_witness :
    preValidateSQL "SELECT * FROM users" = none
    ∧ executeSQLInSandbox engineW 0 "SELECT * FROM users" 5000 1000
        = executeSQLInSandbox engineW 99 "SELECT * FROM users" 5000 1000 :=
  ⟨by decide,
   execute_deterministic_of_same_reply engineW "SELECT * FROM users" 5000 1000
     0 99 (by decide) rfl rfl⟩

/-- C7: every successful `executeSQLInSandbox` result has rows of exactly
`columns.length` cells each, and exactly `min maxRows n` rows when the engine
produced `n` rows — so never more than `maxRows`, and exactly `maxRows` when
the engine produced more (excess rows dropped, not an error). -/
theorem execute_success_shape (engine : SQLEngine) (t : Nat) (sql : String)
    (timeout maxRows : Nat) (r : QueryResult) (rs : List (List (String × JSValue)))
    (hexec : executeSQLInSandbox engine t sql timeout maxRows
      = { error := none, result := some r })
    (hall : engine.all t seedScript sql = Except.ok rs) :
    r.rows.all (fun row => row.length == r.columns.length) = true
    ∧ r.rows.length = min maxRows rs.length := by
  unfold executeSQLInSandbox at hexec
  rw [hall] at hexec
  split at hexec
  · simp at hexec
  · simp only [ValidationResult.mk.injEq, Option.some.injEq] at hexec
    obtain ⟨-, hr⟩ := hexec
    subst hr
    constructor
    · rw [List.all_eq_true]
      intro row hrow
      rw [List.mem_map] at hrow
      obtain ⟨row0, -, hrow0⟩ := hrow
      rw [← hrow0]
      simp
    · simp [List.length_take]

/-- Witness for C7 at a concrete engine producing two rows with `maxRows = 1`. -/
theorem execute_success_shape_witness :
    ([[JSValue.num 1]] : List (List JSValue)).all
        (fun row => row.length == (["id"] : List String).length) = true
    ∧ ([[JSValue.num 1]] : List (List JSValue)).length
        = min 1 ([[("id", JSValue.num 1)], [("id", JSValue.num 2)]] :
            List (List (String × JSValue))).length :=
  execute_success_shape engineW 0 "SELECT 1" 5000 1 ⟨["id"], [[JSValue.num 1]]⟩
    [[("id", JSValue.num 1)], [("id", JSValue.num 2)]] (by decide) rfl

/-- C10: the column names are computed from the row list only after truncation
to `maxRows`, so with `maxRows = 0` the executor succeeds with an empty column
sequence and an empty row sequence, regardless of the rows the engine produced. -/
theorem execute_maxRows_zero (engine : SQLEngine) (t : Nat) (sql : String)
    (timeout : Nat) (rs : List (List (String × JSValue)))
    (hall : engine.all t seedScript sql = Except.ok rs)
    (htime : engine.duration t seedScript sql < timeout) :
    executeSQLInSandbox engine t sql timeout 0
      = { error := none, result := some ⟨[], []⟩ } := by
  unfold executeSQLInSandbox
  rw [if_neg (Nat.not_le.mpr htime), hall]
  rfl

/-- Witness for C10: the two-row engine with `maxRows = 0`. -/
theorem execute_maxRows_zero_witness :
    executeSQLInSandbox engineW 0 "SELECT 1" 5000 0
      = { error := none, result := some ⟨[], []⟩ } :=
  execute_maxRows_zero engineW 0 "SELECT 1" 5000
    [[("id", JSValue.num 1)], [("id", JSValue.num 2)]] rfl (by decide)

/-! ### Feedback orchestrator (`AIService`)

The Ollama HTTP service is an external collaborator, modelled as a function
from the attempt number to that attempt's outcome: a transport/HTTP/timeout
failure with its message, or an HTTP 200 whose JSON body carries an optional
`response` text. `Date.now()` is an explicit `now` parameter and the
`responseCache` `Map` an explicit association list, threaded through. -/

/-- `AIResponse` of the source interfaces (absent optional fields are `none`). -/
structure AIResponse where
  feedback : String
  suggestions : List String
  explanation : Option String
  nextSteps : Option (List String)
deriving DecidableEq, Repr

/-- `SQLContext` of the source interfaces. -/
structure SQLContext where
  userSQL : String
  expectedSQL : Option String
  userResult : Option QueryResult
  expectedResult : Option QueryResult
  exercisePrompt : String
  difficulty : String
  isCorrect : Bool
  validationError : Option String
deriving DecidableEq, Repr

/-- `AIProviderConfig` of the source interfaces. -/
structure AIProviderConfig where
  baseUrl : String
  model : String
  timeout : Nat
  maxRetries : Nat
deriving Repr

/-- JS truthiness of an optional string field (`undefined` and `""` are falsy). -/
def isTruthyStr : Option String → Bool
  | some s => !s.isEmpty
  | none => false

/-- JS `v || null` on an optional string field. -/
def jsOrNull : Option String → Option String
  | some s => if s.isEmpty then none else some s
  | none => none

/-- JS `v || dflt` on the optional response text. -/
def jsOrDefault (v : Option String) (dflt : String) : String :=
  match v with
  | some s => if s.isEmpty then dflt else s
  | none => dflt

/-- `AIService.parseAIResponse`: trim the raw text into the feedback field,
leave the structured fields empty. -/
def parseAIResponse (aiMessage : String) (_context : SQLContext) : AIResponse :=
  { feedback := String.mk (jsTrim aiMessage.data)
  , suggestions := []
  , explanation := some ""
  , nextSteps := some [] }

/-- `AIService.getFallbackResponse`: the deterministic fallback payload rule. -/
def getFallbackResponse (context : SQLContext) : AIResponse :=
  if isTruthyStr context.validationError then
    { feedback := "I encountered an issue with your SQL query: "
        ++ context.validationError.getD ""
        ++ ". Please check your syntax and try again. Remember, only SELECT statements are allowed in this exercise."
    , suggestions := ["Check your SQL syntax",
        "Ensure you" ++ apos ++ "re using SELECT statements only"]
    , explanation := none
    , nextSteps := none }
  else if context.isCorrect && context.userResult.isSome then
    { feedback := "Great job! Your query executed successfully and returned "
        ++ toString ((context.userResult.map (fun r => r.rows.length)).getD 0)
        ++ " row(s). Your SQL syntax is correct and you"
        ++ apos
        ++ "re getting real data from the database. Keep practicing with more complex queries!"
    , suggestions := ["Try adding WHERE clauses", "Experiment with different column selections"]
    , explanation := none
    , nextSteps := none }
  else
    { feedback := "Your query has been processed. The AI tutor is temporarily unavailable, but you can continue practicing. Check if your query returns the expected results."
    , suggestions := ["Review the exercise requirements", "Test your query step by step"]
    , explanation := none
    , nextSteps := none }

/-- The JSON `keyData` object serialized by `createCacheKey`. -/
def stringifyKeyData (sql prompt : String) (error : Option String) (isCorrect : Bool)
    (resultColumns : List String) (resultRowCount : Nat) : String :=
  "\x7b\"sql\":" ++ jsonStr sql
    ++ ",\"prompt\":" ++ jsonStr prompt
    ++ ",\"error\":" ++ (match error with | some e => jsonStr e | none => "null")
    ++ ",\"isCorrect\":" ++ (if isCorrect then "true" else "false")
    ++ ",\"resultColumns\":" ++ stringifyStrList resultColumns
    ++ ",\"resultRowCount\":" ++ toString resultRowCount ++ "\x7d"

/-- `AIService.createCacheKey`: the submission fingerprint — serialized
`keyData` over trimmed lower-cased SQL, prompt, error-or-null, correctness
flag and the coarse result shape. (The source post-composes an injective
base64 rendering of this serialization, which cannot change key equality and
is omitted.) -/
def createCacheKey (context : SQLContext) : String :=
  stringifyKeyData (String.mk (jsToLower (jsTrim context.userSQL.data)))
    context.exercisePrompt
    (jsOrNull context.validationError)
    context.isCorrect
    ((context.userResult.map QueryResult.columns).getD [])
    ((context.userResult.map (fun r => r.rows.length)).getD 0)

/-- `AIService.CACHE_TTL` (one hour, in milliseconds). -/
def CACHE_TTL : Int := 1000 * 60 * 60

/-- The `responseCache` `Map`: key, response and insertion timestamp. -/
abbrev Cache := List (String × AIResponse × Nat)

/-- JS `Map.prototype.get`. -/
def cacheGet (c : Cache) (key : String) : Option (AIResponse × Nat) :=
  (c.find? (fun e => e.1 == key)).map (fun e => e.2)

/-- JS `Map.prototype.delete`. -/
def cacheDelete (c : Cache) (key : String) : Cache :=
  c.filter (fun e => !(e.1 == key))

/-- JS `Map.prototype.set` (upsert). -/
def cacheSet (c : Cache) (key : String) (v : AIResponse × Nat) : Cache :=
  (key, v) :: cacheDelete c key

/-- `AIService.getCachedResponse`: a fresh entry is returned as a hit; a stale
entry is evicted and reported as a miss; the (possibly modified) cache is
returned alongside. -/
def getCachedResponse (c : Cache) (now : Nat) (key : String) :
    Option AIResponse × Cache :=
  match cacheGet c key with
  | some (resp, ts) =>
    if (now : Int) - (ts : Int) < CACHE_TTL then (some resp, c)
    else (none, cacheDelete c key)
  | none => (none, c)

/-- `AIService.cacheResponse`: unconditional upsert stamped with `now`. -/
def cacheResponse (c : Cache) (now : Nat) (key : String) (resp : AIResponse) : Cache :=
  cacheSet c key (resp, now)

/-- One attempt's outcome at the external reasoning service. -/
inductive AttemptOutcome where
  | failure : String → AttemptOutcome
  | success : Option String → AttemptOutcome

/-- The retry loop of `AIService.callAI` over the listed attempt numbers:
the first successful attempt returns the parsed payload (an absent or empty
`response` field falls back to the literal `"No response from AI"` text); when
every attempt fails the last error is thrown. Also counts the attempts made. -/
def runAttempts (svc : Nat → AttemptOutcome) (context : SQLContext) :
    List Nat → String → Except String AIResponse × Nat
  | [], lastError => (Except.error lastError, 0)
  | a :: rest, _ =>
    match svc a with
    | AttemptOutcome.success respOpt =>
      (Except.ok (parseAIResponse (jsOrDefault respOpt "No response from AI") context), 1)
    | AttemptOutcome.failure msg =>
      ((runAttempts svc context rest msg).1, (runAttempts svc context rest msg).2 + 1)

/-- `AIService.callAI`: up to `maxRetries` attempts, numbered from 1. -/
def callAI (cfg : AIProviderConfig) (svc : Nat → AttemptOutcome)
    (context : SQLContext) : Except String AIResponse × Nat :=
  runAttempts svc context (List.range' 1 cfg.maxRetries) "AI request failed"

/-- Outcome of one `generateFeedback` call: the returned payload, the cache
left behind, and the outbound-call and cache-insert counts of the call. -/
structure FeedbackRun where
  response : AIResponse
  cache : Cache
  outboundCalls : Nat
  cacheInserts : Nat
deriving Repr

/-- `AIService.generateFeedback`: consult the cache under the submission
fingerprint; on a hit return the cached payload; on a miss call the service,
cache a successful payload under the fingerprint, and on total failure return
the fallback payload (without caching it — the `catch` path of the source). -/
def generateFeedback (cfg : AIProviderConfig) (svc : Nat → AttemptOutcome)
    (now : Nat) (cache : Cache) (context : SQLContext) : FeedbackRun :=
  let cacheKey := createCacheKey context
  match getCachedResponse cache now cacheKey with
  | (some cached, cache2) => ⟨cached, cache2, 0, 0⟩
  | (none, cache2) =>
    match callAI cfg svc context with
    | (Except.ok response, n) =>
      ⟨response, cacheResponse cache2 now cacheKey response, n, 1⟩
    | (Except.error _, n) => ⟨getFallbackResponse context, cache2, n, 0⟩

/-! ### Cache and retry-loop lemmas -/

theorem cacheGet_cacheDelete (c : Cache) (key : String) :
    cacheGet (cacheDelete c key) key = none := by
  have hfind : (cacheDelete c key).find? (fun e => e.1 == key) = none := by
    rw [List.find?_eq_none]
    intro x hx
    simp only [cacheDelete, List.mem_filter] at hx
    simpa using hx.2
  simp [cacheGet, hfind]

theorem cacheGet_cacheResponse (c : Cache) (now : Nat) (key : String) (resp : AIResponse) :
    cacheGet (cacheResponse c now key resp) key = some (resp, now) := by
  simp [cacheGet, cacheResponse, cacheSet]

theorem runAttempts_calls_le (svc : Nat → AttemptOutcome) (context : SQLContext) :
    ∀ (l : List Nat) (e : String), (runAttempts svc context l e).2 ≤ l.length := by
  intro l
  induction l with
  | nil => intro e; exact Nat.le_refl 0
  | cons a rest ih =>
    intro e
    simp only [runAttempts, List.length_cons]
    cases svc a with
    | success r => exact Nat.succ_le_succ (Nat.zero_le _)
    | failure msg => exact Nat.succ_le_succ (ih msg)

theorem runAttempts_all_fail (svc : Nat → AttemptOutcome) (context : SQLContext) :
    ∀ (l : List Nat) (e : String),
      (∀ i ∈ l, ∃ m, svc i = AttemptOutcome.failure m) →
      ∃ msg, runAttempts svc context l e = (Except.error msg, l.length) := by
  intro l
  induction l with
  | nil => intro e _; exact ⟨e, rfl⟩
  | cons a rest ih =>
    intro e hf
    obtain ⟨m, hm⟩ := hf a (by simp)
    obtain ⟨msg, hrec⟩ := ih m (fun i hi => hf i (by simp [hi]))
    refine ⟨msg, ?_⟩
    simp only [runAttempts, hm, hrec, List.length_cons]

/-- On a cache miss with every attempt failing, `generateFeedback` takes the
catch path: it returns the fallback payload, leaves the miss-time cache
unchanged, and inserts nothing. -/
theorem generateFeedback_of_all_fail (cfg : AIProviderConfig)
    (svc : Nat → AttemptOutcome) (now : Nat) (c : Cache) (context : SQLContext)
    (hmiss : (getCachedResponse c now (createCacheKey context)).1 = none)
    (hfail : ∀ i ∈ List.range' 1 cfg.maxRetries, ∃ m, svc i = AttemptOutcome.failure m) :
    generateFeedback cfg svc now c context
      = ⟨getFallbackResponse context,
         (getCachedResponse c now (createCacheKey context)).2,
         cfg.maxRetries, 0⟩ := by
  have hGpair : getCachedResponse c now (createCacheKey context)
      = (none, (getCachedResponse c now (createCacheKey context)).2) := by
    rw [← hmiss]
  obtain ⟨msg, hrun⟩ := runAttempts_all_fail svc context
    (List.range' 1 cfg.maxRetries) "AI request failed" hfail
  have hcall : callAI cfg svc context = (Except.error msg, cfg.maxRetries) := by
    rw [callAI, hrun, List.length_range']
  rw [generateFeedback]
  rw [hGpair, hcall]

/-- C9: a `get` on an entry whose age has reached the TTL misses and evicts
the entry; a `get` on a fresh entry returns the stored payload and leaves the
cache unchanged; `put` is an unconditional upsert stamped with the current
time. -/
theorem cache_ttl_upsert (c : Cache) (key : String) (resp : AIResponse) (ts now : Nat)
    (hget : cacheGet c key = some (resp, ts)) :
    getCachedResponse c now key
      = (if (now : Int) - (ts : Int) < CACHE_TTL then (some resp, c)
         else (none, cacheDelete c key))
    ∧ cacheGet (cacheDelete c key) key = none
    ∧ ∀ (c2 : Cache) (k2 : String) (r2 : AIResponse) (n2 : Nat),
        cacheGet (cacheResponse c2 n2 k2 r2) k2 = some (r2, n2) := by
  refine ⟨?_, cacheGet_cacheDelete c key, fun c2 k2 r2 n2 => cacheGet_cacheResponse c2 n2 k2 r2⟩
  rw [getCachedResponse, hget]

/-- Concrete cached payload for the C9 witness. -/
def payloadW : AIResponse :=
  { feedback := "cached", suggestions := [], explanation := none, nextSteps := none }

/-- Witness for C9: an entry inserted at time 0 read at exactly the TTL is a
miss and is evicted; an upsert is read back with its timestamp. -/
theorem cache_ttl_upsert_witness :
    getCachedResponse [("k", payloadW, 0)] 3600000 "k"
      = (none, cacheDelete [("k", payloadW, 0)] "k")
    ∧ cacheGet (cacheDelete [("k", payloadW, 0)] "k") "k" = none
    ∧ cacheGet (cacheResponse [] 5 "k2" payloadW) "k2" = some (payloadW, 5) := by
  obtain ⟨h1, h2, h3⟩ := cache_ttl_upsert [("k", payloadW, 0)] "k" payloadW 0 3600000 (by decide)
  refine ⟨?_, h2, h3 [] "k2" payloadW 5⟩
  rw [h1]
  decide

/-! ### Concrete inputs used by counterexamples and witnesses -/

/-- A submission context with no validation error and an incorrect answer. -/
def ctx1 : SQLContext :=
  { userSQL := "SELECT 1", expectedSQL := none, userResult := none
  , expectedResult := none, exercisePrompt := "p", difficulty := "easy"
  , isCorrect := false, validationError := none }

/-- The source's default provider configuration. -/
def cfg1 : AIProviderConfig :=
  { baseUrl := "http://localhost:11434", model := "codellama:7b"
  , timeout := 90000, maxRetries := 2 }

/-- A reasoning service that always fails at the transport. -/
def svcDown : Nat → AttemptOutcome := fun _ => AttemptOutcome.failure "fetch failed"

/-- A reasoning service that always responds HTTP 200 with an empty
`response` text. -/
def svcEmpty : Nat → AttemptOutcome := fun _ => AttemptOutcome.success (some "")

/-- C3 fails as stated: when the service responds successfully but with no
usable text, the returned payload is the one built from the fixed literal
`"No response from AI"`, not the fallback payload of the fixed rule. -/
theorem empty_response_not_fallback_counterexample :
    svcEmpty 1 = AttemptOutcome.success (some "")
    ∧ (generateFeedback cfg1 svcEmpty 0 [] ctx1).response ≠ getFallbackResponse ctx1 :=
  ⟨rfl, by decide⟩

/-- C3 amended: on a cache miss, if every retry attempt fails the returned
payload is the deterministic fallback payload; if instead the service responds
successfully with empty text, the returned payload is the parsed fixed
`"No response from AI"` text. -/
theorem feedback_fallback_on_total_failure (cfg : AIProviderConfig)
    (svc svc2 : Nat → AttemptOutcome) (now : Nat) (c : Cache) (context : SQLContext)
    (hmiss : (getCachedResponse c now (createCacheKey context)).1 = none)
    (hfail : ∀ i ∈ List.range' 1 cfg.maxRetries, ∃ m, svc i = AttemptOutcome.failure m)
    (hpos : 1 ≤ cfg.maxRetries)
    (h2 : svc2 1 = AttemptOutcome.success (some "")) :
    (generateFeedback cfg svc now c context).response = getFallbackResponse context
    ∧ (generateFeedback cfg svc2 now c context).response
        = parseAIResponse "No response from AI" context := by
  constructor
  · rw [generateFeedback_of_all_fail cfg svc now c context hmiss hfail]
  · have hGpair : getCachedResponse c now (createCacheKey context)
        = (none, (getCachedResponse c now (createCacheKey context)).2) := by
      rw [← hmiss]
    have hrange : List.range' 1 cfg.maxRetries = 1 :: List.range' 2 (cfg.maxRetries - 1) := by
      obtain ⟨k, hk⟩ := Nat.exists_eq_add_of_le hpos
      rw [hk, Nat.add_comm, List.range'_succ]
      simp
    have hcall : callAI cfg svc2 context
        = (Except.ok (parseAIResponse "No response from AI" context), 1) := by
      rw [callAI, hrange]
      simp only [runAttempts, h2]
      rfl
    rw [generateFeedback, hGpair, hcall]

/-- Witness for the amended C3: empty cache, service down for both attempts
(respectively responding with empty text on the first). -/
theorem feedback_fallback_on_total_failure_witness :
    (generateFeedback cfg1 svcDown 0 [] ctx1).response = getFallbackResponse ctx1
    ∧ (generateFeedback cfg1 svcEmpty 0 [] ctx1).response
        = parseAIResponse "No response from AI" ctx1 :=
  feedback_fallback_on_total_failure cfg1 svcDown svcEmpty 0 [] ctx1 rfl
    (fun _ _ => ⟨"fetch failed", rfl⟩) (by decide) rfl

/-- C5 fails as stated: on a miss where every attempt fails, the fallback
payload is returned without ever being inserted into the cache. -/
theorem fallback_not_cached_counterexample :
    (generateFeedback cfg1 svcDown 0 [] ctx1).response = getFallbackResponse ctx1
    ∧ cacheGet (generateFeedback cfg1 svcDown 0 [] ctx1).cache (createCacheKey ctx1) = none
    ∧ (generateFeedback cfg1 svcDown 0 [] ctx1).cacheInserts = 0 := by
  refine ⟨by decide, by decide, by decide⟩

/-- C5 amended: per call, at most `maxRetries` outbound calls and at most one
cache insert; on a hit the cached payload is returned with zero outbound calls
and no insert; on a miss where the service succeeds the parsed payload is
inserted under the fingerprint before being returned; on a miss where every
attempt fails the fallback payload is returned without an insert. -/
theorem generateFeedback_cache_effects (cfg : AIProviderConfig)
    (svc : Nat → AttemptOutcome) (now : Nat) (c : Cache) (context : SQLContext) :
    (generateFeedback cfg svc now c context).outboundCalls ≤ cfg.maxRetries
    ∧ (generateFeedback cfg svc now c context).cacheInserts ≤ 1
    ∧ (match getCachedResponse c now (createCacheKey context), callAI cfg svc context with
       | (some cached, c2), _ =>
         generateFeedback cfg svc now c context = ⟨cached, c2, 0, 0⟩
       | (none, c2), (Except.ok resp, n) =>
         generateFeedback cfg svc now c context
             = ⟨resp, cacheResponse c2 now (createCacheKey context) resp, n, 1⟩
           ∧ cacheGet (cacheResponse c2 now (createCacheKey context) resp)
               (createCacheKey context) = some (resp, now)
       | (none, c2), (Except.error msg, n) =>
         generateFeedback cfg svc now c context
           = ⟨getFallbackResponse context, c2, n, 0⟩) := by
  have hcalls : (callAI cfg svc context).2 ≤ cfg.maxRetries := by
    have h := runAttempts_calls_le svc context (List.range' 1 cfg.maxRetries) "AI request failed"
    rw [List.length_range'] at h
    exact h
  rcases hG : getCachedResponse c now (createCacheKey context) with ⟨o, c2⟩
  rcases hC : callAI cfg svc context with ⟨res, n⟩
  rw [hC] at hcalls
  cases o with
  | some cached =>
    have hgen : generateFeedback cfg svc now c context = ⟨cached, c2, 0, 0⟩ := by
      rw [generateFeedback, hG]
    rw [hgen]
    exact ⟨Nat.zero_le _, Nat.zero_le _, rfl⟩
  | none =>
    cases res with
    | ok resp =>
      have hgen : generateFeedback cfg svc now c context
          = ⟨resp, cacheResponse c2 now (createCacheKey context) resp, n, 1⟩ := by
        rw [generateFeedback, hG, hC]
      rw [hgen]
      exact ⟨hcalls, Nat.le_refl 1, rfl, cacheGet_cacheResponse c2 now (createCacheKey context) resp⟩
    | error msg =>
      have hgen : generateFeedback cfg svc now c context
          = ⟨getFallbackResponse context, c2, n, 0⟩ := by
        rw [generateFeedback, hG, hC]
      rw [hgen]
      exact ⟨hcalls, Nat.zero_le _, rfl⟩

/-- Witness instantiating the amended C5 statement at a concrete miss where
every attempt fails. -/
theorem generateFeedback_cache_effects_witness :
    (generateFeedback cfg1 svcDown 0 [] ctx1).outboundCalls ≤ cfg1.maxRetries
    ∧ (generateFeedback cfg1 svcDown 0 [] ctx1).cacheInserts ≤ 1 :=
  ⟨(generateFeedback_cache_effects cfg1 svcDown 0 [] ctx1).1,
   (generateFeedback_cache_effects cfg1 svcDown 0 [] ctx1).2.1⟩

/-- The guard of each of the three cases of the fallback rule, in source
order: a truthy validation error; otherwise a correct answer with a present
result; otherwise the default. -/
def fallbackGuard (context : SQLContext) (i : Fin 3) : Bool :=
  if i = 0 then isTruthyStr context.validationError
  else if i = 1 then
    !isTruthyStr context.validationError
      && (context.isCorrect && context.userResult.isSome)
  else
    !isTruthyStr context.validationError
      && !(context.isCorrect && context.userResult.isSome)

/-- C6: on a cache miss with the reasoning service unreachable for every
retry attempt, `generateFeedback` returns the fallback payload; that payload's
feedback text is never empty; when the context carries a validation error the
fallback feedback contains that exact error text; and exactly one of the three
cases of the fallback rule applies to every context. -/
theorem fallback_totality (cfg : AIProviderConfig) (svc : Nat → AttemptOutcome)
    (now : Nat) (c : Cache) (context : SQLContext)
    (hmiss : (getCachedResponse c now (createCacheKey context)).1 = none)
    (hfail : ∀ i ∈ List.range' 1 cfg.maxRetries, ∃ m, svc i = AttemptOutcome.failure m) :
    (generateFeedback cfg svc now c context).response = getFallbackResponse context
    ∧ (getFallbackResponse context).feedback ≠ ""
    ∧ (match context.validationError with
       | some e => e.data <:+: (getFallbackResponse context).feedback.data
       | none => True)
    ∧ ∃! i : Fin 3, fallbackGuard context i = true := by
  refine ⟨?_, ?_, ?_, ?_⟩
  · rw [generateFeedback_of_all_fail cfg svc now c context hmiss hfail]
  · unfold getFallbackResponse
    split
    · intro h
      have hd := congrArg String.data h
      rw [String.data_append, String.data_append] at hd
      rcases List.append_eq_nil.mp hd with ⟨hd1, -⟩
      rcases List.append_eq_nil.mp hd1 with ⟨hd2, -⟩
      exact absurd hd2 (by decide)
    · split
      · intro h
        have hd := congrArg String.data h
        rw [String.data_append, String.data_append, String.data_append,
            String.data_append] at hd
        rcases List.append_eq_nil.mp hd with ⟨hd1, -⟩
        rcases List.append_eq_nil.mp hd1 with ⟨hd2, -⟩
        rcases List.append_eq_nil.mp hd2 with ⟨hd3, -⟩
        rcases List.append_eq_nil.mp hd3 with ⟨hd4, -⟩
        exact absurd hd4 (by decide)
      · decide
  · cases hv : context.validationError with
    | none => trivial
    | some e =>
      by_cases he : e = ""
      · subst he
        exact List.nil_infix
      · have htruthy : isTruthyStr context.validationError = true := by
          rw [hv]
          show (!e.isEmpty) = true
          cases hb : e.isEmpty
          · rfl
          · exact absurd ((String.isEmpty_iff e).mp hb) he
        unfold getFallbackResponse
        rw [if_pos htruthy, hv]
        refine ⟨("I encountered an issue with your SQL query: " : String).data,
          (". Please check your syntax and try again. Remember, only SELECT statements are allowed in this exercise." : String).data, ?_⟩
        simp [List.append_assoc]
  · by_cases h1 : isTruthyStr context.validationError = true
    · refine ⟨0, by simp [fallbackGuard, h1], fun j hj => ?_⟩
      fin_cases j
      · rfl
      · simp [fallbackGuard, h1] at hj
      · simp [fallbackGuard, h1] at hj
    · by_cases h2 : (context.isCorrect && context.userResult.isSome) = true
      · refine ⟨1, by simp [fallbackGuard, h1, h2], fun j hj => ?_⟩
        fin_cases j
        · simp [fallbackGuard, h1] at hj
        · rfl
        · simp [fallbackGuard, h2] at hj
      · refine ⟨2, by simp [fallbackGuard, h1, h2], fun j hj => ?_⟩
        fin_cases j
        · simp [fallbackGuard, h1] at hj
        · simp [fallbackGuard, h2] at hj
        · rfl

/-- The submission context of the spec scenario: validation error
`"SQL Error: no such table: orders"`. -/
def ctxErr : SQLContext :=
  { userSQL := "SELECT * FROM orders", expectedSQL := none, userResult := none
  , expectedResult := none, exercisePrompt := "p", difficulty := "easy"
  , isCorrect := false, validationError := some "SQL Error: no such table: orders" }

/-- Witness for C6 at the spec scenario: service unreachable, context carrying
the validation error text, which the fallback feedback contains verbatim. -/
theorem fallback_totality_witness :
    (generateFeedback cfg1 svcDown 0 [] ctxErr).response = getFallbackResponse ctxErr
    ∧ (getFallbackResponse ctxErr).feedback ≠ ""
    ∧ ("SQL Error: no such table: orders" : String).data
        <:+: (getFallbackResponse ctxErr).feedback.data := by
  obtain ⟨p1, p2, p3, -⟩ := fallback_totality cfg1 svcDown 0 [] ctxErr rfl
    (fun _ _ => ⟨"fetch failed", rfl⟩)
  exact ⟨p1, p2, p3⟩

end LearnSql
